import Mathlib

/-!
Verification of the VITON-HD Flask service (`viton_service/app.py`) against its
natural-language specification.  The Python module is shallowly embedded:

* the process-wide global `model` becomes `ServerState`;
* external facts and third-party library calls (file-system checks for the
  checkpoint, PIL image decode / resize / PNG encode, and the opaque
  third-party `Generator` network) become fields of an `Env` record, since
  they are not code of this repository;
* the three Flask handlers (`health_check`, `generate_tryon`, `list_models`)
  become pure functions from `Env` and `ServerState` to a JSON `Response`,
  with `generate_tryon` additionally returning the successor state and a
  trace of the externally visible processing steps (`Effect`), so that
  claims of the form "no preprocessing is performed" are statable;
* Python exceptions become `Except PyErr`; numeric pixel arithmetic is done
  over `ℚ` (the float32 computations of the source, read exactly).
-/

/-- Channel values of a decoded RGB image, as produced by
`Image.open(...).convert('RGB')`: for each row, column and channel a byte
value, modelled as a rational in `[0, 255]`. -/
structure Image where
  width : Nat
  height : Nat
  pix : Nat → Nat → Nat → ℚ

/-- A 4-dimensional tensor, as produced by `unsqueeze(0)` in
`preprocess_image` and consumed/returned by the generator network. -/
structure Tensor4 where
  n : Nat
  c : Nat
  h : Nat
  w : Nat
  val : Nat → Nat → Nat → Nat → ℚ

/-- The 8-bit image handed to `Image.fromarray` before PNG encoding:
`height × width × 3` unsigned bytes. -/
structure ByteImage where
  height : Nat
  width : Nat
  pix : Nat → Nat → Nat → Nat

/-- Python exceptions that the service code can raise and catch. -/
inductive PyErr where
  | FileNotFoundError (msg : String)
  | ValueError (msg : String)
  | GeneratorError (msg : String)
deriving DecidableEq, Repr

/-- Result of `str(e)` on a caught exception. -/
def PyErr.msg : PyErr → String
  | .FileNotFoundError m => m
  | .ValueError m => m
  | .GeneratorError m => m

/-- The third-party VITON-HD generator after `Generator(4, 4, 3)`,
`load_state_dict`, `.to(DEVICE)` and `.eval()`: an opaque forward function
from the two preprocessed tensors to an output tensor, possibly raising. -/
structure ModelInstance where
  forward : Tensor4 → Tensor4 → Except PyErr Tensor4

/-- Everything outside the Python module itself: configuration read from the
environment, file-system facts, and the third-party library calls the
module makes (PIL decode/resize/PNG-encode, torch, the generator). -/
structure Env where
  vitonPath : String
  device : String
  cudaAvailable : Bool
  checkpointExists : Bool
  checkpointDirExists : Bool
  checkpointDirListing : List String
  mkModel : ModelInstance
  decode : List Nat → Option Image
  resize : Image → Nat → Nat → Image
  png : ByteImage → List Nat

/-- The module's mutable global state: `model = None` initially. -/
structure ServerState where
  model : Option ModelInstance

/-- A JSON value appearing in one of the service's response payloads. -/
inductive JVal where
  | s (v : String)
  | b (v : Bool)
  | arr (v : List String)
deriving DecidableEq, Repr

/-- An HTTP response: status code plus JSON object body (ordered keys). -/
structure Response where
  status : Nat
  body : List (String × JVal)
deriving DecidableEq, Repr

/-- Externally visible processing steps, recorded as a trace. -/
inductive Effect where
  | loadWeights
  | preprocessCall
  | inferenceCall
deriving DecidableEq, Repr

/-- Path `os.path.join(CHECKPOINT_DIR, 'gen.pkl')` where
`CHECKPOINT_DIR = os.path.join(VITON_HD_PATH, 'checkpoints')`. -/
def checkpoint_path (env : Env) : String :=
  env.vitonPath ++ "/checkpoints/gen.pkl"

/-- Embedding of `load_model`: if the global model is `None`, check the
checkpoint file, construct and load the generator, store it in the global
and return it; otherwise return the stored instance untouched.  The
returned trace records whether construction/weight loading happened. -/
def load_model (env : Env) (st : ServerState) :
    ServerState × List Effect × Except PyErr ModelInstance :=
  match st.model with
  | some m => (st, [], .ok m)
  | none =>
      if env.checkpointExists then
        ({ model := some env.mkModel }, [.loadWeights], .ok env.mkModel)
      else
        (st, [], .error (.FileNotFoundError
          ("Model checkpoint not found at " ++ checkpoint_path env)))

/-- ImageNet per-channel mean used by `preprocess_image`. -/
def imagenetMean (ch : Nat) : ℚ :=
  if ch = 0 then 485/1000 else if ch = 1 then 456/1000 else 406/1000

/-- ImageNet per-channel standard deviation used by `preprocess_image`. -/
def imagenetStd (ch : Nat) : ℚ :=
  if ch = 0 then 229/1000 else if ch = 1 then 224/1000 else 225/1000

/-- Embedding of `preprocess_image`: decode (raising `ValueError` on a bad
image), resize to `(1024, 768)`, divide by 255, permute `(2,0,1)`,
normalize with the ImageNet statistics, `unsqueeze(0)`. -/
def preprocess_image (env : Env) (data : List Nat) : Except PyErr Tensor4 :=
  match env.decode data with
  | none => .error (.ValueError "Error preprocessing image: cannot identify image file")
  | some img =>
      let resized := env.resize img 1024 768
      .ok { n := 1
            c := 3
            h := resized.height
            w := resized.width
            val := fun _ ch y x =>
              (resized.pix y x ch / 255 - imagenetMean ch) / imagenetStd ch }

/-- Elementwise `np.clip(x, lo, hi)`. -/
def np_clip (x lo hi : ℚ) : ℚ :=
  min (max x lo) hi

/-- Cast `astype(np.uint8)` of a clipped non-negative float: truncation of
the fractional part. -/
def astypeUint8 (x : ℚ) : Nat :=
  (Int.floor x).toNat

/-- Postprocessing of the model output in `generate_tryon`:
`output[0].permute(1, 2, 0)`, denormalize `(x * 0.5 + 0.5) * 255`, clip to
`[0, 255]`, cast to `uint8`, yielding the array given to `Image.fromarray`. -/
def postprocess (out : Tensor4) : ByteImage :=
  { height := out.h
    width := out.w
    pix := fun y x ch =>
      astypeUint8 (np_clip ((out.val 0 ch y x * (1/2) + 1/2) * 255) 0 255) }

/-- Outcome of the body of `generate_tryon` before JSON serialization. -/
inductive TryonOutcome where
  | badRequest
  | ok (img : ByteImage)
  | failed (e : PyErr)

/-- Remainder of the `/api/tryon` handler body once the model is available:
multipart-field validation, preprocessing of both images, inference,
postprocessing.  Any raised exception short-circuits to `.failed`;
`eff` is the trace accumulated by the lazy load. -/
def afterLoad (env : Env) (st1 : ServerState) (eff : List Effect) (m : ModelInstance)
    (person clothing : Option (List Nat)) :
    ServerState × List Effect × TryonOutcome :=
  match person, clothing with
  | some pdata, some cdata =>
      match preprocess_image env pdata with
      | .error e => (st1, eff ++ [.preprocessCall], .failed e)
      | .ok p =>
          match preprocess_image env cdata with
          | .error e => (st1, eff ++ [.preprocessCall, .preprocessCall], .failed e)
          | .ok c =>
              match m.forward p c with
              | .error e =>
                  (st1, eff ++ [.preprocessCall, .preprocessCall, .inferenceCall],
                   .failed e)
              | .ok out =>
                  (st1, eff ++ [.preprocessCall, .preprocessCall, .inferenceCall],
                   .ok (postprocess out))
  | _, _ => (st1, eff, .badRequest)

/-- Embedding of the body of the `/api/tryon` handler, in source order:
lazy model load first (before any validation), then the rest. -/
def tryonStep (env : Env) (st : ServerState) (person clothing : Option (List Nat)) :
    ServerState × List Effect × TryonOutcome :=
  match st.model with
  | some m => afterLoad env st [] m person clothing
  | none =>
      match load_model env st with
      | (st1, eff, .ok m) => afterLoad env st1 eff m person clothing
      | (st1, eff, .error e) => (st1, eff, .failed e)

/-- Base64 alphabet of RFC 4648 as used by `base64.b64encode`. -/
def base64Chars : List Char :=
  String.toList "ABCDEFGHIJKLMNOPQRSTUVWXYZabcdefghijklmnopqrstuvwxyz0123456789+/"

/-- Character for a 6-bit group. -/
def b64Char (n : Nat) : Char :=
  base64Chars.getD n 'A'

/-- Standard base64 encoding of a byte list, with `=` padding. -/
def base64Encode : List Nat → String
  | [] => ""
  | [a] =>
      String.mk [b64Char (a / 4), b64Char (a % 4 * 16), '=', '=']
  | [a, b] =>
      String.mk [b64Char (a / 4), b64Char (a % 4 * 16 + b / 16),
                 b64Char (b % 16 * 4), '=']
  | a :: b :: c :: rest =>
      String.mk [b64Char (a / 4), b64Char (a % 4 * 16 + b / 16),
                 b64Char (b % 16 * 4 + c / 64), b64Char (c % 64)] ++
      base64Encode rest

/-- Serialization of a `tryonStep` outcome, exactly as the source does it:
400 on missing fields, 500 with `success:false` on any caught exception,
200 with the data-URL otherwise. -/
def serializeOutcome (env : Env) (r : ServerState × List Effect × TryonOutcome) :
    ServerState × List Effect × Response :=
  match r with
  | (st1, eff, .badRequest) =>
      (st1, eff,
       { status := 400
         body := [("error", .s "Missing required files: person_image, clothing_image")] })
  | (st1, eff, .ok img) =>
      (st1, eff,
       { status := 200
         body := [("success", .b true),
                  ("result_image", .s ("data:image/png;base64," ++ base64Encode (env.png img))),
                  ("message", .s "Try-on generated successfully")] })
  | (st1, eff, .failed e) =>
      (st1, eff,
       { status := 500
         body := [("success", .b false), ("error", .s e.msg)] })

/-- Embedding of the `/api/tryon` handler: the body plus its serialization. -/
def generate_tryon (env : Env) (st : ServerState) (person clothing : Option (List Nat)) :
    ServerState × List Effect × Response :=
  serializeOutcome env (tryonStep env st person clothing)

/-- Embedding of the `/health` handler: a pure read of configuration and of
the global model variable. -/
def health_check (env : Env) (st : ServerState) : Response :=
  { status := 200
    body := [("status", .s "healthy"),
             ("device", .s env.device),
             ("cuda_available", .b env.cudaAvailable),
             ("model_loaded", .b st.model.isSome)] }

/-- Embedding of the `/api/models` handler: list `.pkl` files of the
checkpoint directory when it exists, the empty list otherwise. -/
def list_models (env : Env) : Response :=
  { status := 200
    body := [("available_models", .arr
                (if env.checkpointDirExists then
                   env.checkpointDirListing.filter (fun f => f.endsWith ".pkl")
                 else [])),
             ("selected_model", .s "gen.pkl")] }

/-- A request to one of the three routes. -/
inductive ApiRequest where
  | health
  | tryon (person clothing : Option (List Nat))
  | models

/-- Dispatch of one request: only `/api/tryon` can change the global state. -/
def handle (env : Env) (st : ServerState) : ApiRequest → ServerState × Response
  | .health => (st, health_check env st)
  | .tryon p c =>
      let r := generate_tryon env st p c
      (r.1, r.2.2)
  | .models => (st, list_models env)

/-- Sequential execution of a list of requests. -/
def runRequests (env : Env) (st : ServerState) : List ApiRequest → ServerState × List Response
  | [] => (st, [])
  | r :: rs =>
      let step := handle env st r
      let rest := runRequests env step.1 rs
      (rest.1, step.2 :: rest.2)

/-- A 1-by-1 black image, a concrete value for the abstract decoder. -/
def trivImage : Image :=
  { width := 1, height := 1, pix := fun _ _ _ => 0 }

/-- A concrete generator instance that returns its first input unchanged. -/
def trivModel : ModelInstance :=
  { forward := fun a _ => .ok a }

/-- A concrete resize producing exactly the target dimensions by sampling. -/
def sampleResize (img : Image) (w h : Nat) : Image :=
  { width := w, height := h, pix := img.pix }

/-- A concrete environment: checkpoint present, trivial library functions. -/
def envBase : Env :=
  { vitonPath := "./VITON-HD"
    device := "cpu"
    cudaAvailable := false
    checkpointExists := true
    checkpointDirExists := true
    checkpointDirListing := ["gen.pkl", "notes.txt", "seg.pkl"]
    mkModel := trivModel
    decode := fun _ => some trivImage
    resize := sampleResize
    png := fun _ => [] }

/-- The concrete environment with the checkpoint file absent. -/
def envNoCkpt : Env :=
  { envBase with checkpointExists := false }

/-- Initial server state: `model = None`. -/
def st0 : ServerState :=
  { model := none }

lemma afterLoad_fst (env : Env) (st1 : ServerState) (eff : List Effect)
    (m : ModelInstance) (p c : Option (List Nat)) :
    (afterLoad env st1 eff m p c).1 = st1 := by
  unfold afterLoad
  split
  · split
    · rfl
    · split
      · rfl
      · split <;> rfl
  · rfl

lemma afterLoad_missing (env : Env) (st1 : ServerState) (eff : List Effect)
    (m : ModelInstance) (p c : Option (List Nat)) (h : p = none ∨ c = none) :
    afterLoad env st1 eff m p c = (st1, eff, .badRequest) := by
  unfold afterLoad
  rcases p with _ | pd
  · rfl
  · rcases c with _ | cd
    · rfl
    · rcases h with h | h <;> simp at h

lemma afterLoad_badRequest_iff (env : Env) (st1 : ServerState) (eff : List Effect)
    (m : ModelInstance) (p c : Option (List Nat)) :
    (afterLoad env st1 eff m p c).2.2 = .badRequest ↔ (p = none ∨ c = none) := by
  constructor
  · intro h
    by_contra hmiss
    push_neg at hmiss
    obtain ⟨hp, hc⟩ := hmiss
    rcases p with _ | pd
    · exact hp rfl
    rcases c with _ | cd
    · exact hc rfl
    unfold afterLoad at h
    rcases hpre : preprocess_image env pd with e | t <;> simp only [hpre] at h
    · exact TryonOutcome.noConfusion h
    rcases hpre2 : preprocess_image env cd with e | t2 <;> simp only [hpre2] at h
    · exact TryonOutcome.noConfusion h
    rcases hf : m.forward t t2 with e | o <;> simp only [hf] at h <;>
      exact TryonOutcome.noConfusion h
  · intro h
    rw [afterLoad_missing env st1 eff m p c h]

lemma tryonStep_some (env : Env) (st : ServerState) (m : ModelInstance)
    (p c : Option (List Nat)) (h : st.model = some m) :
    tryonStep env st p c = afterLoad env st [] m p c := by
  unfold tryonStep
  rw [h]

lemma tryonStep_none_ck (env : Env) (st : ServerState)
    (p c : Option (List Nat)) (h : st.model = none) (hck : env.checkpointExists = true) :
    tryonStep env st p c =
      afterLoad env { model := some env.mkModel } [.loadWeights] env.mkModel p c := by
  unfold tryonStep load_model
  rw [h]
  simp [hck]

lemma tryonStep_none_nock (env : Env) (st : ServerState)
    (p c : Option (List Nat)) (h : st.model = none) (hck : env.checkpointExists = false) :
    tryonStep env st p c =
      (st, [], .failed (.FileNotFoundError
        ("Model checkpoint not found at " ++ checkpoint_path env))) := by
  unfold tryonStep load_model
  rw [h]
  simp [hck]

lemma serializeOutcome_status_400 (env : Env) (r : ServerState × List Effect × TryonOutcome) :
    (serializeOutcome env r).2.2.status = 400 ↔ r.2.2 = .badRequest := by
  obtain ⟨st1, eff, o⟩ := r
  cases o <;> simp [serializeOutcome]

lemma serializeOutcome_failed (env : Env) (st1 : ServerState) (eff : List Effect)
    (e : PyErr) :
    serializeOutcome env (st1, eff, .failed e) =
      (st1, eff,
       { status := 500, body := [("success", .b false), ("error", .s e.msg)] }) := rfl

lemma serializeOutcome_fst (env : Env) (r : ServerState × List Effect × TryonOutcome) :
    (serializeOutcome env r).1 = r.1 := by
  obtain ⟨st1, eff, o⟩ := r
  cases o <;> rfl

lemma serializeOutcome_eff (env : Env) (r : ServerState × List Effect × TryonOutcome) :
    (serializeOutcome env r).2.1 = r.2.1 := by
  obtain ⟨st1, eff, o⟩ := r
  cases o <;> rfl

/-- C1, counterexample: with the model unloaded and the checkpoint file
absent, a request missing `person_image` is answered with HTTP 500 (the
lazy model load, which runs before field validation, raises and is caught),
not 400 — refuting "400 if and only if a required field is absent". -/
theorem C1_counterexample :
    ¬ (((generate_tryon envNoCkpt st0 none (some [])).2.2.status = 400) ↔
        ((none : Option (List Nat)) = none ∨ (some ([] : List Nat)) = none)) ∧
    (generate_tryon envNoCkpt st0 none (some [])).2.2.status = 500 := by
  constructor
  · intro h
    have h4 : (generate_tryon envNoCkpt st0 none (some [])).2.2.status = 400 :=
      h.mpr (Or.inl rfl)
    rw [show (generate_tryon envNoCkpt st0 none (some [])).2.2.status = 500 from rfl] at h4
    exact absurd h4 (by decide)
  · rfl

/-- C1 (amended): provided the lazy model load performed before validation
does not raise (the model is already loaded or the checkpoint file exists),
a `/api/tryon` response is a 400 error exactly when `person_image` or
`clothing_image` is absent; and whenever a field is absent, no
preprocessing and no inference is performed. -/
theorem C1_tryon_400_iff_missing (env : Env) (st : ServerState)
    (person clothing : Option (List Nat))
    (hload : st.model ≠ none ∨ env.checkpointExists = true) :
    ((generate_tryon env st person clothing).2.2.status = 400 ↔
       (person = none ∨ clothing = none)) ∧
    ((person = none ∨ clothing = none) →
       Effect.preprocessCall ∉ (generate_tryon env st person clothing).2.1 ∧
       Effect.inferenceCall ∉ (generate_tryon env st person clothing).2.1) := by
  constructor
  · rw [generate_tryon, serializeOutcome_status_400]
    rcases hst : st.model with _ | m
    · have hck : env.checkpointExists = true := by
        rcases hload with h | h
        · exact absurd hst h
        · exact h
      rw [tryonStep_none_ck env st person clothing hst hck]
      exact afterLoad_badRequest_iff _ _ _ _ _ _
    · rw [tryonStep_some env st m person clothing hst]
      exact afterLoad_badRequest_iff _ _ _ _ _ _
  · intro h
    rw [generate_tryon, serializeOutcome_eff]
    rcases hst : st.model with _ | m
    · cases hck : env.checkpointExists
      · rw [tryonStep_none_nock env st person clothing hst hck]
        simp
      · rw [tryonStep_none_ck env st person clothing hst hck,
            afterLoad_missing _ _ _ _ _ _ h]
        simp
    · rw [tryonStep_some env st m person clothing hst,
          afterLoad_missing _ _ _ _ _ _ h]
      simp

/-- C1 witness: the amended theorem applied to a request with both fields
absent, against an environment whose checkpoint file exists. -/
theorem C1_witness :
    envBase.checkpointExists = true ∧
    (((generate_tryon envBase st0 none none).2.2.status = 400 ↔
       ((none : Option (List Nat)) = none ∨ (none : Option (List Nat)) = none)) ∧
     (((none : Option (List Nat)) = none ∨ (none : Option (List Nat)) = none) →
       Effect.preprocessCall ∉ (generate_tryon envBase st0 none none).2.1 ∧
       Effect.inferenceCall ∉ (generate_tryon envBase st0 none none).2.1)) :=
  ⟨rfl, C1_tryon_400_iff_missing envBase st0 none none (Or.inr rfl)⟩

/-- C4: when the global model is `None` and `gen.pkl` is absent from the
checkpoint directory, `load_model` raises `FileNotFoundError` and the
global model stays `None`. -/
theorem C4_load_model_missing_checkpoint (env : Env) (st : ServerState)
    (h1 : st.model = none) (h2 : env.checkpointExists = false) :
    load_model env st =
      (st, [], .error (.FileNotFoundError
        ("Model checkpoint not found at " ++ checkpoint_path env))) ∧
    (load_model env st).1.model = none := by
  have heq : load_model env st =
      (st, [], .error (.FileNotFoundError
        ("Model checkpoint not found at " ++ checkpoint_path env))) := by
    unfold load_model
    rw [h1]
    simp [h2]
  exact ⟨heq, by rw [heq]; exact h1⟩

/-- C4 witness: the theorem applied to the fresh state and an environment
with no checkpoint file. -/
theorem C4_witness :
    st0.model = none ∧ envNoCkpt.checkpointExists = false ∧
    (load_model envNoCkpt st0 =
      (st0, [], .error (.FileNotFoundError
        ("Model checkpoint not found at " ++ checkpoint_path envNoCkpt))) ∧
     (load_model envNoCkpt st0).1.model = none) :=
  ⟨rfl, rfl, C4_load_model_missing_checkpoint envNoCkpt st0 rfl rfl⟩

/-- C6: every `/health` response carries exactly the keys `status`,
`device`, `cuda_available`, `model_loaded`; `model_loaded` is true exactly
when the global model is loaded and false exactly when it is `None`; and
`status` is the string `healthy` in every state. -/
theorem C6_health_check_spec (env : Env) (st : ServerState) :
    (health_check env st).body.map Prod.fst =
        ["status", "device", "cuda_available", "model_loaded"] ∧
    ((health_check env st).body.lookup "model_loaded" = some (.b true) ↔
        st.model.isSome = true) ∧
    ((health_check env st).body.lookup "model_loaded" = some (.b false) ↔
        st.model = none) ∧
    (health_check env st).body.lookup "status" = some (.s "healthy") := by
  rcases st with ⟨_ | m⟩ <;>
    exact ⟨rfl, by simp [health_check, List.lookup], by simp [health_check, List.lookup], rfl⟩

/-- State with the model already loaded, for witnesses. -/
def stLoaded : ServerState :=
  { model := some trivModel }

/-- C2: whenever the uploaded bytes decode to an image, `preprocess_image`
succeeds with a tensor of shape `(1, 3, 768, 1024)` (the decoded image
resized to 1024 wide by 768 high), whose entries are the resized pixel
values divided by 255 and normalized per channel with the ImageNet mean and
standard deviation, whatever the original dimensions of `img`. -/
theorem C2_preprocess_shape (env : Env) (data : List Nat) (img : Image)
    (hdec : env.decode data = some img)
    (hres : ∀ i w h, (env.resize i w h).width = w ∧ (env.resize i w h).height = h) :
    ∃ t, preprocess_image env data = .ok t ∧
      t.n = 1 ∧ t.c = 3 ∧ t.h = 768 ∧ t.w = 1024 ∧
      ∀ ch y x, t.val 0 ch y x =
        ((env.resize img 1024 768).pix y x ch / 255 - imagenetMean ch) / imagenetStd ch := by
  unfold preprocess_image
  rw [hdec]
  exact ⟨_, rfl, rfl, rfl, (hres img 1024 768).2, (hres img 1024 768).1,
    fun ch y x => rfl⟩

/-- C2 witness: the theorem applied to the concrete environment, whose
decoder yields the 1-by-1 image and whose resize meets the PIL contract. -/
theorem C2_witness :
    envBase.decode [] = some trivImage ∧
    (∀ i w h, (envBase.resize i w h).width = w ∧ (envBase.resize i w h).height = h) ∧
    (∃ t, preprocess_image envBase [] = .ok t ∧
      t.n = 1 ∧ t.c = 3 ∧ t.h = 768 ∧ t.w = 1024 ∧
      ∀ ch y x, t.val 0 ch y x =
        ((envBase.resize trivImage 1024 768).pix y x ch / 255 - imagenetMean ch) /
          imagenetStd ch) :=
  ⟨rfl, fun _ _ _ => ⟨rfl, rfl⟩,
    C2_preprocess_shape envBase [] trivImage rfl (fun _ _ _ => ⟨rfl, rfl⟩)⟩

lemma afterLoad_eff_counts (env : Env) (st1 : ServerState) (eff : List Effect)
    (m : ModelInstance) (p c : Option (List Nat))
    (h1 : eff.count .loadWeights ≤ 1) (h2 : eff.count .preprocessCall = 0)
    (h3 : eff.count .inferenceCall = 0) :
    (afterLoad env st1 eff m p c).2.1.count .loadWeights ≤ 1 ∧
    (afterLoad env st1 eff m p c).2.1.count .preprocessCall ≤ 2 ∧
    (afterLoad env st1 eff m p c).2.1.count .inferenceCall ≤ 1 := by
  unfold afterLoad
  split
  · split
    · refine ⟨?_, ?_, ?_⟩ <;>
        simp [List.count_append, List.count_cons, h1, h2, h3]
    · split
      · refine ⟨?_, ?_, ?_⟩ <;>
          simp [List.count_append, List.count_cons, h1, h2, h3]
      · split <;>
          · refine ⟨?_, ?_, ?_⟩ <;>
              simp [List.count_append, List.count_cons, h1, h2, h3]
  · exact ⟨h1, by simp [h2], by simp [h3]⟩

lemma tryonStep_eff_counts (env : Env) (st : ServerState) (p c : Option (List Nat)) :
    (tryonStep env st p c).2.1.count .loadWeights ≤ 1 ∧
    (tryonStep env st p c).2.1.count .preprocessCall ≤ 2 ∧
    (tryonStep env st p c).2.1.count .inferenceCall ≤ 1 := by
  rcases hst : st.model with _ | m
  · cases hck : env.checkpointExists
    · rw [tryonStep_none_nock env st p c hst hck]
      exact ⟨by simp, by simp, by simp⟩
    · rw [tryonStep_none_ck env st p c hst hck]
      exact afterLoad_eff_counts env _ _ _ p c (by simp) (by simp) (by simp)
  · rw [tryonStep_some env st m p c hst]
    exact afterLoad_eff_counts env st [] m p c (by simp) (by simp) (by simp)

/-- C3: when both multipart fields are present and any exception is raised
during processing (decode failure, missing checkpoint during lazy load, or
a model exception), the `/api/tryon` response is exactly
`{success: false, error: str(e)}` with status 500 — the handler returns a
response rather than propagating — and nothing is retried: the trace holds
at most one weight load, at most two preprocessing calls (one per image)
and at most one inference call. -/
theorem C3_tryon_error_500 (env : Env) (st : ServerState)
    (pdata cdata : List Nat) (e : PyErr)
    (herr : (tryonStep env st (some pdata) (some cdata)).2.2 = .failed e) :
    (generate_tryon env st (some pdata) (some cdata)).2.2 =
      { status := 500, body := [("success", .b false), ("error", .s e.msg)] } ∧
    ((generate_tryon env st (some pdata) (some cdata)).2.1.count .loadWeights ≤ 1 ∧
     (generate_tryon env st (some pdata) (some cdata)).2.1.count .preprocessCall ≤ 2 ∧
     (generate_tryon env st (some pdata) (some cdata)).2.1.count .inferenceCall ≤ 1) := by
  constructor
  · rcases hts : tryonStep env st (some pdata) (some cdata) with ⟨st1, eff, o⟩
    rw [hts] at herr
    simp only at herr
    subst herr
    rw [generate_tryon, hts, serializeOutcome_failed]
  · rw [generate_tryon, serializeOutcome_eff]
    exact tryonStep_eff_counts env st (some pdata) (some cdata)

/-- C3 witness: the theorem applied where processing fails because the
checkpoint is missing during the lazy load, with both fields present. -/
theorem C3_witness :
    (tryonStep envNoCkpt st0 (some []) (some [])).2.2 =
      .failed (.FileNotFoundError
        "Model checkpoint not found at ./VITON-HD/checkpoints/gen.pkl") ∧
    ((generate_tryon envNoCkpt st0 (some []) (some [])).2.2 =
      { status := 500
        body := [("success", .b false),
                 ("error", .s (PyErr.msg (.FileNotFoundError
                   "Model checkpoint not found at ./VITON-HD/checkpoints/gen.pkl")))] } ∧
     ((generate_tryon envNoCkpt st0 (some []) (some [])).2.1.count .loadWeights ≤ 1 ∧
      (generate_tryon envNoCkpt st0 (some []) (some [])).2.1.count .preprocessCall ≤ 2 ∧
      (generate_tryon envNoCkpt st0 (some []) (some [])).2.1.count .inferenceCall ≤ 1)) :=
  ⟨rfl, C3_tryon_error_500 envNoCkpt st0 [] []
    (.FileNotFoundError "Model checkpoint not found at ./VITON-HD/checkpoints/gen.pkl") rfl⟩

/-- C5: under sequential execution the model is created at most once — once
the global model holds an instance, `load_model` returns exactly that
instance with no construction or weight-loading effect, and no handler
(health, try-on, models) nor any sequence of requests changes the global
state, so the instance is never replaced. -/
theorem C5_model_loaded_once (env : Env) (st : ServerState) (m : ModelInstance)
    (h : st.model = some m) :
    load_model env st = (st, [], .ok m) ∧
    (∀ r, (handle env st r).1 = st) ∧
    (∀ reqs, (runRequests env st reqs).1 = st) := by
  have hlm : load_model env st = (st, [], .ok m) := by
    unfold load_model
    rw [h]
  have hhandle : ∀ r, (handle env st r).1 = st := by
    intro r
    cases r with
    | health => rfl
    | models => rfl
    | tryon p c =>
        show (generate_tryon env st p c).1 = st
        rw [generate_tryon, serializeOutcome_fst, tryonStep_some env st m p c h]
        exact afterLoad_fst env st [] m p c
  refine ⟨hlm, hhandle, ?_⟩
  intro reqs
  induction reqs with
  | nil => rfl
  | cons r rs ih =>
      simp only [runRequests]
      rw [hhandle r]
      exact ih

/-- C5 witness: the theorem applied to a state already holding the trivial
instance. -/
theorem C5_witness :
    stLoaded.model = some trivModel ∧
    (load_model envBase stLoaded = (stLoaded, [], .ok trivModel) ∧
     (∀ r, (handle envBase stLoaded r).1 = stLoaded) ∧
     (∀ reqs, (runRequests envBase stLoaded reqs).1 = stLoaded)) :=
  ⟨rfl, C5_model_loaded_once envBase stLoaded trivModel rfl⟩

lemma astypeUint8_le_255 (x : ℚ) (h : x ≤ 255) : astypeUint8 x ≤ 255 := by
  unfold astypeUint8
  have h2 : Int.floor x ≤ (255 : ℤ) := by
    have h3 := Int.floor_le_floor h
    simpa using h3
  omega

lemma afterLoad_ok_img (env : Env) (st1 : ServerState) (eff : List Effect)
    (m : ModelInstance) (p c : Option (List Nat)) (img : ByteImage)
    (h : (afterLoad env st1 eff m p c).2.2 = .ok img) :
    ∃ t1 t2 out, preprocess_image env (p.getD []) = .ok t1 ∧
      preprocess_image env (c.getD []) = .ok t2 ∧
      m.forward t1 t2 = .ok out ∧ img = postprocess out := by
  rcases p with _ | pd
  · rw [afterLoad_missing env st1 eff m none c (Or.inl rfl)] at h
    exact absurd h (by simp)
  rcases c with _ | cd
  · rw [afterLoad_missing env st1 eff m (some pd) none (Or.inr rfl)] at h
    exact absurd h (by simp)
  unfold afterLoad at h
  rcases hp : preprocess_image env pd with e | t1 <;> simp only [hp] at h
  · exact absurd h (by simp)
  rcases hc : preprocess_image env cd with e | t2 <;> simp only [hc] at h
  · exact absurd h (by simp)
  rcases hf : m.forward t1 t2 with e | o <;> simp only [hf] at h
  · exact absurd h (by simp)
  simp only [TryonOutcome.ok.injEq] at h
  exact ⟨t1, t2, o, hp, hc, hf, h.symm⟩

/-- C7: postprocessing maps each model-output value `x` to
`(x * 0.5 + 0.5) * 255` clipped to `[0, 255]` and truncated to an unsigned
byte, so every pixel of the result array lies in `[0, 255]`; and every
successful `/api/tryon` response carries status 200 with `result_image`
equal to the PNG encoding of that array, base64-encoded and prefixed with
`data:image/png;base64,`. -/
theorem C7_postprocess_spec :
    (∀ (out : Tensor4) (y x ch : Nat),
       (postprocess out).pix y x ch =
         astypeUint8 (np_clip ((out.val 0 ch y x * (1/2) + 1/2) * 255) 0 255) ∧
       (postprocess out).pix y x ch ≤ 255) ∧
    (∀ (env : Env) (st st1 : ServerState) (eff : List Effect)
       (p c : Option (List Nat)) (img : ByteImage),
       tryonStep env st p c = (st1, eff, .ok img) →
       (generate_tryon env st p c).2.2.status = 200 ∧
       (generate_tryon env st p c).2.2.body.lookup "result_image" =
         some (.s ("data:image/png;base64," ++ base64Encode (env.png img))) ∧
       ∃ out, img = postprocess out) := by
  constructor
  · intro out y x ch
    refine ⟨rfl, ?_⟩
    show astypeUint8 (np_clip ((out.val 0 ch y x * (1/2) + 1/2) * 255) 0 255) ≤ 255
    exact astypeUint8_le_255 _ (min_le_right _ _)
  · intro env st st1 eff p c img hts
    have hout : (tryonStep env st p c).2.2 = .ok img := by rw [hts]
    have hpost : ∃ out, img = postprocess out := by
      rcases hst : st.model with _ | m
      · cases hck : env.checkpointExists
        · rw [tryonStep_none_nock env st p c hst hck] at hout
          exact absurd hout (by simp)
        · rw [tryonStep_none_ck env st p c hst hck] at hout
          obtain ⟨t1, t2, o, _, _, _, himg⟩ := afterLoad_ok_img env _ _ _ p c img hout
          exact ⟨o, himg⟩
      · rw [tryonStep_some env st m p c hst] at hout
        obtain ⟨t1, t2, o, _, _, _, himg⟩ := afterLoad_ok_img env _ _ _ p c img hout
        exact ⟨o, himg⟩
    rw [generate_tryon, hts]
    exact ⟨rfl, rfl, hpost⟩

/-- Extraction of the image of a successful outcome. -/
def imgOf : TryonOutcome → ByteImage
  | .ok img => img
  | _ => { height := 0, width := 0, pix := fun _ _ _ => 0 }

/-- The concrete result image of a successful try-on under `envBase`. -/
def imgB : ByteImage :=
  imgOf (tryonStep envBase st0 (some []) (some [])).2.2

/-- C7 witness: the success part applied to a concrete successful request. -/
theorem C7_witness :
    tryonStep envBase st0 (some []) (some []) =
      ((tryonStep envBase st0 (some []) (some [])).1,
       (tryonStep envBase st0 (some []) (some [])).2.1, .ok imgB) ∧
    ((generate_tryon envBase st0 (some []) (some [])).2.2.status = 200 ∧
     (generate_tryon envBase st0 (some []) (some [])).2.2.body.lookup "result_image" =
       some (.s ("data:image/png;base64," ++ base64Encode (envBase.png imgB))) ∧
     ∃ out, imgB = postprocess out) :=
  ⟨rfl, C7_postprocess_spec.2 envBase st0 _ _ (some []) (some []) imgB rfl⟩

lemma preprocess_ok_dims (env : Env) (data : List Nat) (t : Tensor4)
    (hres : ∀ i w h, (env.resize i w h).width = w ∧ (env.resize i w h).height = h)
    (h : preprocess_image env data = .ok t) :
    t.h = 768 ∧ t.w = 1024 := by
  unfold preprocess_image at h
  rcases hd : env.decode data with _ | img
  · rw [hd] at h
    exact absurd h (by simp)
  · rw [hd] at h
    simp only [Except.ok.injEq] at h
    rw [← h]
    exact ⟨(hres img 1024 768).2, (hres img 1024 768).1⟩

/-- C8: on every successful `/api/tryon` request the image handed to the
PNG encoder is 1024 wide by 768 high — the preprocessing resize target —
irrespective of the uploaded images, provided the opaque generator network
is shape-preserving. -/
theorem C8_tryon_result_dims (env : Env) (st : ServerState)
    (p c : Option (List Nat)) (st1 : ServerState) (eff : List Effect) (img : ByteImage)
    (hres : ∀ i w h, (env.resize i w h).width = w ∧ (env.resize i w h).height = h)
    (hgen : ∀ mi, (st.model = some mi ∨ mi = env.mkModel) →
       ∀ a b r, mi.forward a b = .ok r → r.h = a.h ∧ r.w = a.w)
    (hok : tryonStep env st p c = (st1, eff, .ok img)) :
    img.height = 768 ∧ img.width = 1024 := by
  have hout : (tryonStep env st p c).2.2 = .ok img := by rw [hok]
  have key : ∀ (mi : ModelInstance), (st.model = some mi ∨ mi = env.mkModel) →
      ∀ (st2 : ServerState) (eff2 : List Effect),
      (afterLoad env st2 eff2 mi p c).2.2 = .ok img →
      img.height = 768 ∧ img.width = 1024 := by
    intro mi hmi st2 eff2 hal
    obtain ⟨t1, t2, o, hp, hc, hf, himg⟩ := afterLoad_ok_img env st2 eff2 mi p c img hal
    obtain ⟨ht1h, ht1w⟩ := preprocess_ok_dims env _ t1 hres hp
    obtain ⟨hoh, how⟩ := hgen mi hmi t1 t2 o hf
    subst himg
    exact ⟨by rw [show (postprocess o).height = o.h from rfl, hoh, ht1h],
           by rw [show (postprocess o).width = o.w from rfl, how, ht1w]⟩
  rcases hst : st.model with _ | m
  · cases hck : env.checkpointExists
    · rw [tryonStep_none_nock env st p c hst hck] at hout
      exact absurd hout (by simp)
    · rw [tryonStep_none_ck env st p c hst hck] at hout
      exact key env.mkModel (Or.inr rfl) _ _ hout
  · rw [tryonStep_some env st m p c hst] at hout
    exact key m (Or.inl hst) _ _ hout

/-- C8 witness: the theorem applied to a concrete successful request with
the shape-preserving trivial generator. -/
theorem C8_witness :
    (∀ i w h, (envBase.resize i w h).width = w ∧ (envBase.resize i w h).height = h) ∧
    imgB.height = 768 ∧ imgB.width = 1024 :=
  ⟨fun _ _ _ => ⟨rfl, rfl⟩,
   C8_tryon_result_dims envBase st0 (some []) (some [])
     (tryonStep envBase st0 (some []) (some [])).1
     (tryonStep envBase st0 (some []) (some [])).2.1 imgB
     (fun _ _ _ => ⟨rfl, rfl⟩)
     (by
       intro mi hmi a b r hr
       rcases hmi with h | h
       · exact absurd h (by simp [st0])
       · subst h
         injection hr with h2
         subst h2
         exact ⟨rfl, rfl⟩)
     rfl⟩

/-- Concrete environment whose checkpoint directory does not exist. -/
def envNoDir : Env :=
  { envBase with checkpointDirExists := false }

/-- C9: every `/api/models` response is a 200 with
`selected_model = "gen.pkl"`; `available_models` is exactly the filenames
of the checkpoint directory ending in `.pkl`, and the empty list when the
directory does not exist — the missing directory never yields an error
response. -/
theorem C9_list_models_spec (env : Env) :
    (list_models env).status = 200 ∧
    (list_models env).body.lookup "selected_model" = some (.s "gen.pkl") ∧
    (env.checkpointDirExists = false →
       (list_models env).body.lookup "available_models" = some (.arr [])) ∧
    (env.checkpointDirExists = true →
       ∃ L, (list_models env).body.lookup "available_models" = some (.arr L) ∧
         ∀ f, f ∈ L ↔ (f ∈ env.checkpointDirListing ∧ f.endsWith ".pkl" = true)) := by
  refine ⟨rfl, rfl, ?_, ?_⟩
  · intro h
    simp [list_models, List.lookup, h]
  · intro h
    refine ⟨env.checkpointDirListing.filter (fun f => f.endsWith ".pkl"), ?_, ?_⟩
    · simp [list_models, List.lookup, h]
    · intro f
      simp [List.mem_filter]

/-- C9 witness: the theorem applied to environments with the checkpoint
directory present and absent. -/
theorem C9_witness :
    envBase.checkpointDirExists = true ∧
    (∃ L, (list_models envBase).body.lookup "available_models" = some (.arr L) ∧
       ∀ f, f ∈ L ↔ (f ∈ envBase.checkpointDirListing ∧ f.endsWith ".pkl" = true)) ∧
    envNoDir.checkpointDirExists = false ∧
    (list_models envNoDir).body.lookup "available_models" = some (.arr []) :=
  ⟨rfl, (C9_list_models_spec envBase).2.2.2 rfl, rfl,
   (C9_list_models_spec envNoDir).2.2.1 rfl⟩

/-- C10: `/health` is effect-free — handling it returns the state
unchanged, so the global model variable is identical before and after, and
any run of consecutive `/health` requests leaves the state fixed and
returns the identical response (hence the same `model_loaded` value) every
time. -/
theorem C10_health_pure (env : Env) (st : ServerState) (k : Nat) :
    (handle env st .health).1 = st ∧
    (handle env st .health).1.model = st.model ∧
    runRequests env st (List.replicate k .health) =
      (st, List.replicate k (health_check env st)) := by
  refine ⟨rfl, rfl, ?_⟩
  induction k with
  | zero => rfl
  | succ n ih =>
      simp only [List.replicate_succ, runRequests, handle]
      rw [ih]
